import Mathlib

/-!
Shallow embedding of the `choho` customs-declaration extraction pipeline
(`src/extractor_llantas/extractor_llantas.py` and
`src/extractor_kits/extractor_kits.py`) together with proofs about it.

Texts are modelled as `List Char`.  Python string primitives
(`str.replace`, `str.strip`, `str.upper`, `str.split`, `re.sub` on the
fixed patterns, `re.findall`, `re.search`) are given executable models in
this file; the regular expressions hard-coded in the source are embedded
as terms of a small regex language with Python backtracking semantics
(leftmost match, greedy and lazy quantifier priority, `re.IGNORECASE`).

Regular-expression substitution for *configuration-supplied* patterns
(the JSON rule files read at run time) is abstracted as an oracle
parameter `OraculoSub`; a `.error` result of the oracle models an
`re.error` raised at apply time.

Python `set` accumulation of string candidates is modelled as a
duplicate-free list in first-insertion order; the real CPython iteration
order of a `set` is hash-table order (randomised per process), so no
theorem below depends on the enumeration order of a candidate set with
more than one element.  `datetime.now()` is modelled as an explicit
`fecha` parameter, and the debug-file write inside `procesar_linea_kits`
is omitted as pure I/O.
-/

namespace Choho

set_option maxRecDepth 10000

/-- Python whitespace characters recognised by `str.strip` and `\s`
(ASCII fragment; all texts handled by the repository are ASCII). -/
def esEspacio (c : Char) : Bool :=
  c = ' ' || c = '\t' || c = '\n' || c = '\r' || c = '\x0b' || c = '\x0c'

/-- `str.upper` (ASCII fragment). -/
def pyUpper (s : List Char) : List Char := s.map Char.toUpper

/-- `str.strip()`: drop leading and trailing whitespace. -/
def pyStrip (s : List Char) : List Char :=
  ((s.dropWhile esEspacio).reverse.dropWhile esEspacio).reverse

/-- Helper for `colapsarEspacios`: `prev` records whether the previous
emitted character came from a whitespace run. -/
def colapsarAux (prev : Bool) : List Char → List Char
  | [] => []
  | c :: cs =>
    if esEspacio c then
      if prev then colapsarAux true cs else ' ' :: colapsarAux true cs
    else c :: colapsarAux false cs

/-- `re.sub(r'\s+', ' ', s)`: every maximal whitespace run becomes one
space. -/
def colapsarEspacios (s : List Char) : List Char := colapsarAux false s

/-- Fuel-driven core of `str.replace`: replaces all non-overlapping
occurrences of `pat` left to right, scanning resumes after the inserted
replacement.  The fuel is an upper bound on the input length. -/
def reemplazarAux (pat rep : List Char) : Nat → List Char → List Char
  | 0, s => s
  | _ + 1, [] => []
  | fuel + 1, c :: cs =>
    if pat.isPrefixOf (c :: cs) then
      rep ++ reemplazarAux pat rep fuel ((c :: cs).drop pat.length)
    else
      c :: reemplazarAux pat rep fuel cs

/-- Python `s.replace(pat, rep)` for a non-empty `pat` (every pattern in
the repository's replacement tables is non-empty). -/
def pyReplace (s pat rep : List Char) : List Char :=
  if pat.isEmpty then s else reemplazarAux pat rep s.length s

/-- Python `pat in s` (substring containment). -/
def contiene (s pat : List Char) : Bool :=
  (List.range (s.length + 1)).any fun i => pat.isPrefixOf (s.drop i)

/-- Python `s.split('|')` (keeps empty fields). -/
def dividirPipeAux (acc : List Char) : List Char → List (List Char)
  | [] => [acc.reverse]
  | c :: cs =>
    if c = '|' then acc.reverse :: dividirPipeAux [] cs
    else dividirPipeAux (c :: acc) cs

/-- `s.split('|')`. -/
def dividirPipe (s : List Char) : List (List Char) := dividirPipeAux [] s

/-- `'|'.join(partes)`. -/
def unirPipe : List (List Char) → List Char
  | [] => []
  | [p] => p
  | p :: ps => p ++ '|' :: unirPipe ps

/-- Set-accumulation step: Python `set.add` observed through the
first-insertion enumeration of the model (see the file header). -/
def agregarConjunto {α : Type} [DecidableEq α] (xs : List α) (x : α) : List α :=
  if x ∈ xs then xs else xs ++ [x]

/-- `re.sub(r'[,;\.:\s]+$', '', s)`: remove the maximal trailing run of
commas, semicolons, periods, colons and whitespace. -/
def quitarColaPuntuacion (s : List Char) : List Char :=
  (s.reverse.dropWhile fun c => c = ',' || c = ';' || c = '.' || c = ':' || esEspacio c).reverse

/-- Helper for `normalizarGuiones`: `tras` marks that a dash was just
emitted (whitespace after it is consumed by the match), `pend` buffers
whitespace that is dropped if a dash follows. -/
def guionesAux : Bool → List Char → List Char → List Char
  | _, pend, [] => pend.reverse
  | trasGuion, pend, c :: cs =>
    if esEspacio c then
      if trasGuion then guionesAux true [] cs
      else guionesAux false (c :: pend) cs
    else if c = '-' then '-' :: guionesAux true [] cs
    else pend.reverse ++ c :: guionesAux false [] cs

/-- `re.sub(r'\s*-\s*', '-', s)`: drop whitespace adjacent to dashes. -/
def normalizarGuiones (s : List Char) : List Char := guionesAux false [] s

/-- Digit-string value (`int` on a `\d+` capture). -/
def valorDigitos (s : List Char) : Nat :=
  s.foldl (fun acc c => acc * 10 + (c.toNat - '0'.toNat)) 0

/-- Python `int(s)` on a string: optional surrounding whitespace,
optional sign, then at least one digit; `none` models `ValueError`. -/
def pyInt (s : List Char) : Option Int :=
  let t := pyStrip s
  match t with
  | '+' :: ds => if ds ≠ [] ∧ ds.all Char.isDigit then some (valorDigitos ds) else none
  | '-' :: ds => if ds ≠ [] ∧ ds.all Char.isDigit then some (-(valorDigitos ds : Int)) else none
  | ds => if ds ≠ [] ∧ ds.all Char.isDigit then some (valorDigitos ds) else none

/-- Decimal literal split into integer digits and fractional digits.
`none` models a string `float()` rejects.  Modelled subset: optional
sign, digits with at most one point, at least one digit overall; the
repository only feeds quantity strings of this shape to `float()`. -/
def parseDecimal (s : List Char) : Option (Bool × List Char × List Char) :=
  let t := pyStrip s
  let (neg, u) : Bool × List Char :=
    match t with
    | '+' :: r => (false, r)
    | '-' :: r => (true, r)
    | r => (false, r)
  let ent := u.takeWhile Char.isDigit
  let resto := u.drop ent.length
  match resto with
  | [] => if ent ≠ [] then some (neg, ent, []) else none
  | '.' :: fr =>
    if fr.all Char.isDigit ∧ (ent ≠ [] ∨ fr ≠ []) then some (neg, ent, fr) else none
  | _ => none

/-- `int(float(s))`: truncation toward zero of the decimal value.
`none` models the `ValueError` branch. -/
def pyFloatTrunc (s : List Char) : Option Int :=
  (parseDecimal s).map fun (neg, ent, _) =>
    if neg then -(valorDigitos ent : Int) else (valorDigitos ent : Int)

/-- Value of a `\d+(?:\.\d+)?` capture is strictly positive iff some
digit is non-zero (used for the `cantidad > 0` test on floats). -/
def decimalPositivo (ent fr : List Char) : Bool :=
  valorDigitos ent > 0 || valorDigitos fr > 0

/-! ## A small regex language

Enough to embed every pattern hard-coded in the two extractor modules.
All starred or plus quantifiers in those patterns range over single
character classes, which keeps the matcher structurally recursive; `?`
occurs only greedy.  Matching is always case-insensitive on letters,
mirroring the `re.IGNORECASE` flag used by every hard-coded `findall`
and `search` call (the two `re.sub` patterns contain no letters, so the
flag is irrelevant there). -/

/-- Character classes appearing in the source patterns. -/
inductive CC where
  | digito
  | espacio
  | unoDe (cs : List Char)
  | ningunoDe (cs : List Char)
deriving DecidableEq

/-- Membership test of a character class. -/
def CC.prueba : CC → Char → Bool
  | .digito, c => c.isDigit
  | .espacio, c => esEspacio c
  | .unoDe cs, c => cs.contains c
  | .ningunoDe cs, c => !cs.contains c

/-- Regex syntax.  `estrella`/`mas` are the `*`/`+` quantifiers over a
character class (`perezosa` marks the lazy variant), `opcional` is the
greedy `?`, `mira`/`miraNeg` are `(?=...)`/`(?!...)`, `fin` is `$`,
`frontera` is `\b`, and `grupo` is the single capture group each source
pattern contains. -/
inductive RE where
  | eps
  | lit (c : Char)
  | cls (k : CC)
  | seq (a b : RE)
  | alt (a b : RE)
  | estrella (k : CC) (perezosa : Bool)
  | mas (k : CC) (perezosa : Bool)
  | opcional (r : RE)
  | mira (r : RE)
  | miraNeg (r : RE)
  | fin
  | frontera
  | grupo (r : RE)
deriving DecidableEq

/-- Capture span (start, end) of group 1, if it participated. -/
abbrev Captura := Option (Nat × Nat)

/-- Match outcome: end position and capture span. -/
abbrev ResM := Nat × Captura

/-- Length of the maximal run of `k`-characters starting at `i`. -/
def largoRun (k : CC) (s : List Char) (i : Nat) : Nat :=
  ((s.drop i).takeWhile k.prueba).length

/-- Word character for `\b` (ASCII `[a-zA-Z0-9_]`). -/
def esPalabra (c : Char) : Bool := c.isAlphanum || c = '_'

/-- Whether position `i` of `s` sits at a `\b` boundary. -/
def enFrontera (s : List Char) (i : Nat) : Bool :=
  let w : Option Char → Bool := fun o => (o.map esPalabra).getD false
  let prev := if i = 0 then none else s.get? (i - 1)
  w prev != w (s.get? i)

/-- Backtracking matcher in continuation-passing style.  Alternatives
are explored in Python priority order (first branch of `alt` first,
greedy quantifiers longest first, lazy shortest first), so the first
success returned agrees with CPython's backtracking engine on these
patterns. -/
def corre (s : List Char) : RE → Nat → Captura → (Nat → Captura → Option ResM) → Option ResM
  | .eps, i, cap, k => k i cap
  | .lit c, i, cap, k =>
    match s.get? i with
    | some d => if d.toUpper = c.toUpper then k (i + 1) cap else none
    | none => none
  | .cls cl, i, cap, k =>
    match s.get? i with
    | some d => if cl.prueba d then k (i + 1) cap else none
    | none => none
  | .seq a b, i, cap, k => corre s a i cap fun j cap2 => corre s b j cap2 k
  | .alt a b, i, cap, k =>
    match corre s a i cap k with
    | some r => some r
    | none => corre s b i cap k
  | .estrella cl perezosa, i, cap, k =>
    let n := largoRun cl s i
    let js := if perezosa then List.range (n + 1) else (List.range (n + 1)).reverse
    js.findSome? fun j => k (i + j) cap
  | .mas cl perezosa, i, cap, k =>
    let n := largoRun cl s i
    let js0 := (List.range n).map (· + 1)
    let js := if perezosa then js0 else js0.reverse
    js.findSome? fun j => k (i + j) cap
  | .opcional r, i, cap, k =>
    match corre s r i cap k with
    | some res => some res
    | none => k i cap
  | .mira r, i, cap, k =>
    match corre s r i cap (fun j c => some (j, c)) with
    | some _ => k i cap
    | none => none
  | .miraNeg r, i, cap, k =>
    match corre s r i cap (fun j c => some (j, c)) with
    | some _ => none
    | none => k i cap
  | .fin, i, cap, k =>
    if i = s.length ∨ (i + 1 = s.length ∧ s.get? i = some '\n') then k i cap else none
  | .frontera, i, cap, k => if enFrontera s i then k i cap else none
  | .grupo r, i, cap, k => corre s r i cap fun j _ => k j (some (i, j))

/-- Try to match `r` at position `i` of `s`. -/
def coincideEn (r : RE) (s : List Char) (i : Nat) : Option ResM :=
  corre s r i none fun j cap => some (j, cap)

/-- Leftmost match at position `≥ i`: `(start, end, capture)`. -/
def buscarDesde (r : RE) (s : List Char) (i : Nat) : Option (Nat × Nat × Captura) :=
  (List.range (s.length + 1 - i)).findSome? fun d =>
    (coincideEn r s (i + d)).map fun res => (i + d, res.1, res.2)

/-- `re.search(r, s)` viewed as success. -/
def hayCoincidencia (r : RE) (s : List Char) : Bool :=
  (buscarDesde r s 0).isSome

/-- Text of a capture span. -/
def textoSpan (s : List Char) : Captura → List Char
  | some (a, b) => (s.take b).drop a
  | none => []

/-- Fuel-driven `re.findall` loop; each step advances the scan position
by at least one, so `s.length + 1` fuel suffices. -/
def buscarTodosAux (r : RE) (s : List Char) : Nat → Nat → List (List Char)
  | 0, _ => []
  | fuel + 1, i =>
    match buscarDesde r s i with
    | none => []
    | some (st, en, cap) =>
      textoSpan s cap ::
        buscarTodosAux r s fuel (if st < en then en else en + 1)

/-- `re.findall(r, s, re.IGNORECASE)` for a pattern with exactly one
capture group: the list of group captures, one per match. -/
def buscarTodos (r : RE) (s : List Char) : List (List Char) :=
  buscarTodosAux r s (s.length + 1) 0

/-- Fuel-driven `re.sub` loop where the replacement template is `\1`
(the capture text): emits the unmatched gap, then the capture, then
continues after the match. -/
def subGrupoAux (r : RE) (s : List Char) : Nat → Nat → List Char
  | 0, i => s.drop i
  | fuel + 1, i =>
    match buscarDesde r s i with
    | none => s.drop i
    | some (st, en, cap) =>
      ((s.take st).drop i) ++ textoSpan s cap ++
        (if st < en then subGrupoAux r s fuel en
         else match s.get? en with
           | some c => c :: subGrupoAux r s fuel (en + 1)
           | none => [])

/-- `re.sub(r, r'\1', s)`. -/
def subGrupo (r : RE) (s : List Char) : List Char :=
  subGrupoAux r s (s.length + 1) 0

/-- Literal string regex. -/
def litCadena (s : String) : RE :=
  s.data.foldr (fun c acc => RE.seq (.lit c) acc) .eps

/-- Right-nested alternation of a non-empty list (empty list gives a
never-matching lookahead contradiction placeholder: unused). -/
def altLista : List RE → RE
  | [] => RE.miraNeg .eps
  | [r] => r
  | r :: rs => RE.alt r (altLista rs)

/-- Sequence of a list of regexes. -/
def seqLista : List RE → RE
  | [] => RE.eps
  | [r] => r
  | r :: rs => RE.seq r (seqLista rs)

/-- `\s*`. -/
def sEstrella : RE := .estrella .espacio false

/-- `\s+`. -/
def sMas : RE := .mas .espacio false

/-- `\d+`. -/
def dMas : RE := .mas .digito false

/-! ## The hard-coded patterns of the two extractor modules -/

/-- `([^,]+?)` — the lazy tag-value capture. -/
def grupoNoComa : RE := .grupo (.mas (.ningunoDe [',']) true)

/-- `(?=\s*,\s*(?:ALT1|...|ALTn|$))` — the terminator lookahead of the
tag-prefixed patterns. -/
def miraEtiquetas (alts : List String) : RE :=
  .mira (seqLista [sEstrella, .lit ',', sEstrella,
    altLista ((alts.map litCadena) ++ [RE.fin])])

/-- `,\s*TAG\s*([^,]+?)(?=\s*,\s*(?:...|$))`. -/
def patronEtiquetaA (tag : String) (alts : List String) : RE :=
  seqLista [.lit ',', sEstrella, litCadena tag, sEstrella, grupoNoComa, miraEtiquetas alts]

/-- `TAG\s*([^,]+?)(?=\s*,\s*(?:...|$))`. -/
def patronEtiquetaB (tag : String) (alts : List String) : RE :=
  seqLista [litCadena tag, sEstrella, grupoNoComa, miraEtiquetas alts]

/-- `,\s*TAG\s*([^,\.;:]+?)(?=\s*[,\.;:]|$)`. -/
def patronEtiquetaC (tag : String) : RE :=
  seqLista [.lit ',', sEstrella, litCadena tag, sEstrella,
    .grupo (.mas (.ningunoDe [',', '.', ';', ':']) true),
    .mira (.alt (seqLista [sEstrella, .cls (.unoDe [',', '.', ';', ':'])]) .fin)]

/-- The three-pattern set of a tag-field extractor. -/
def patronesEtiqueta (tag : String) (alts : List String) : List RE :=
  [patronEtiquetaA tag alts, patronEtiquetaB tag alts, patronEtiquetaC tag]

/-- `extractor_llantas` reference patterns (lines 278–282). -/
def patronesReferenciaLl : List RE :=
  patronesEtiqueta "REFERENCIA:"
    ["MARCA", "CANTIDAD", "REFERENCIA", "PRODUCTO", "MODELO", "CODIGO", "SERIAL"]

/-- `extractor_llantas` brand patterns (lines 301–305). -/
def patronesMarcaLl : List RE :=
  patronesEtiqueta "MARCA:"
    ["MODELO", "REFERENCIA", "CANTIDAD", "MARCA", "PRODUCTO", "CODIGO", "SERIAL"]

/-- `extractor_kits` product patterns (lines 291–295). -/
def patronesProductoKits : List RE :=
  patronesEtiqueta "PRODUCTO:" ["MARCA", "CANTIDAD", "REFERENCIA", "MODELO", "CADENA", "KIT"]

/-- `extractor_kits` brand patterns (lines 314–318). -/
def patronesMarcaKits : List RE :=
  patronesEtiqueta "MARCA:" ["MODELO", "REFERENCIA", "CANTIDAD", "PRODUCTO", "CADENA", "KIT"]

/-- `extractor_kits` reference patterns (lines 337–341). -/
def patronesReferenciaKits : List RE :=
  patronesEtiqueta "REFERENCIA:" ["MARCA", "CANTIDAD", "PRODUCTO", "MODELO", "CADENA", "KIT"]

/-- `extractor_kits` model patterns (lines 360–364). -/
def patronesModeloKits : List RE :=
  patronesEtiqueta "MODELO:" ["MARCA", "CANTIDAD", "PRODUCTO", "REFERENCIA", "CADENA", "KIT"]

/-- `U(?!NIDAD)`. -/
def uNoUnidad : RE := .seq (.lit 'U') (.miraNeg (litCadena "NIDAD"))

/-- `UNIDADES?`. -/
def unidadesOpcS : RE := .seq (litCadena "UNIDADE") (.opcional (.lit 'S'))

/-- `extractor_llantas` quantity patterns (lines 323–332), in source
order. -/
def patronesCantidadLl : List RE :=
  [seqLista [.lit ',', sEstrella, litCadena "CANTIDAD:", sEstrella, .grupo dMas, sEstrella, unidadesOpcS],
   seqLista [.lit ',', sEstrella, litCadena "CANTIDAD:", sEstrella, .grupo dMas, sEstrella, uNoUnidad],
   seqLista [.lit ',', sEstrella, litCadena "CANTIDAD:", sEstrella, .opcional (.lit '('), .grupo dMas,
     .opcional (.lit ')'), sEstrella, uNoUnidad],
   seqLista [.lit ',', sEstrella, litCadena "CANTIDAD:", sEstrella, .grupo dMas],
   seqLista [litCadena "CANTIDAD:", sEstrella, .grupo dMas, sEstrella, unidadesOpcS],
   seqLista [litCadena "CANTIDAD:", sEstrella, .grupo dMas, sEstrella, uNoUnidad],
   seqLista [litCadena "CANTIDAD:", sEstrella, .opcional (.lit '('), .grupo dMas,
     .opcional (.lit ')'), sEstrella, uNoUnidad],
   seqLista [litCadena "CANTIDAD:", sEstrella, .grupo dMas]]

/-- `(\d+(?:\.\d+)?)`. -/
def grupoDecimal : RE := .grupo (.seq dMas (.opcional (.seq (.lit '.') dMas)))

/-- `extractor_kits` quantity patterns (lines 383–391), in source
order. -/
def patronesCantidadKits : List RE :=
  [seqLista [grupoDecimal, sEstrella,
     altLista [unidadesOpcS, litCadena "PIEZA", litCadena "KILOS", litCadena "UND"]],
   seqLista [.lit ',', sEstrella, litCadena "CANTIDAD:", sEstrella, .grupo dMas, sEstrella, unidadesOpcS],
   seqLista [.lit ',', sEstrella, litCadena "CANTIDAD:", sEstrella, .grupo dMas, sEstrella,
     litCadena "UN", .opcional (.lit 'D')],
   seqLista [.lit ',', sEstrella, litCadena "CANTIDAD:", sEstrella, .opcional (.lit '('), .grupo dMas,
     .opcional (.lit ')'), sEstrella, uNoUnidad],
   seqLista [.lit ',', sEstrella, litCadena "CANTIDAD:", sEstrella, .grupo dMas],
   seqLista [litCadena "CANTIDAD:", sEstrella, grupoDecimal, sEstrella,
     .alt unidadesOpcS (litCadena "UND")],
   seqLista [litCadena "CANT", sEstrella, .lit '(', sEstrella, grupoDecimal, sEstrella,
     .lit 'U', sEstrella, .lit ')']]

/-- `extractor_kits` chain patterns (lines 410–416). -/
def patronesCadena : List RE :=
  [litCadena "CADENA", litCadena "CHAIN", litCadena "CADENILLA",
   seqLista [litCadena "KIT", sMas, litCadena "ARRASTRE"],
   seqLista [litCadena "KIT", sMas, litCadena "DE", sMas, litCadena "ARRASTRE"]]

/-- `[-\s]`. -/
def claseGuionEspacio : CC := .unoDe ['-', ' ', '\t', '\n', '\r', '\x0b', '\x0c']

/-- `extractor_kits` step/measure patterns (lines 431–438). -/
def patronesPaso : List RE :=
  [.grupo (seqLista [dMas, .lit 'H', .estrella claseGuionEspacio false,
     .estrella .digito false, .opcional (.lit 'L')]),
   .grupo (seqLista [dMas, sEstrella, .lit 'H']),
   .grupo (seqLista [dMas, .lit '.', dMas, sEstrella, litCadena "MM"]),
   .grupo (.seq dMas (litCadena "MM")),
   seqLista [litCadena "PASO:", sEstrella, grupoNoComa,
     .mira (.alt (.seq sEstrella (.lit ',')) .fin)],
   seqLista [litCadena "MEDIDA:", sEstrella, grupoNoComa,
     .mira (.alt (.seq sEstrella (.lit ',')) .fin)]]

/-- `(\d+)[.,]00\b` — the quantity-cleaning substitution pattern of
`extractor_llantas` (line 364). -/
def patronCeros00Ll : RE :=
  seqLista [.grupo dMas, .cls (.unoDe ['.', ',']), .lit '0', .lit '0', .frontera]

/-- `(\d+)[.,\s]00\b` — the quantity-cleaning substitution pattern of
`extractor_kits` (line 473). -/
def patronCeros00Kits : RE :=
  seqLista [.grupo dMas, .cls (.unoDe ['.', ',', ' ', '\t', '\n', '\r', '\x0b', '\x0c']),
    .lit '0', .lit '0', .frontera]

/-! ## Rule engine (`aplicar_expresiones_regulares_ordenadas`)

Configuration-supplied regex substitution is abstracted by an oracle
`OraculoSub`; `.error ()` models an `re.error` raised while applying the
rule, in which case the step leaves the text unchanged (`continue`). -/

/-- A loaded rule: `{"patron": ..., "reemplazo": ...}`. -/
structure ConfigRegla where
  patron : List Char
  reemplazo : List Char
deriving DecidableEq

/-- The loaded rule file: name → rule, in load order (Python dicts keep
insertion order; lookup is by name). -/
abbrev Reglas := List (List Char × ConfigRegla)

/-- Oracle for `re.sub(patron, reemplazo, texto)` on configuration
patterns. -/
abbrev OraculoSub := List Char → List Char → List Char → Except Unit (List Char)

/-- Fixed application order of `extractor_llantas` (lines 118–130). -/
def ordenAplicacionLl : List (List Char) :=
  ["normalizar_cantidad_unidad_decimales".data,
   "normalizar_cantidad_unidad_enteros".data,
   "separar_cantidad_producto".data,
   "normalizar_espacios_antes_producto".data,
   "normalizar_cantidad_punto_coma".data,
   "normalizar_cantidad_coma".data,
   "eliminar_decimales".data,
   "normalizar_punto_coma_mercancia".data,
   "limpiar_espacios_multiples".data,
   "patron_palabra_cantidad".data,
   "normalizar_cantidad_espacio".data]

/-- Fixed application order of `extractor_kits` (lines 124–136;
`eliminar_decimales` is commented out there). -/
def ordenAplicacionKits : List (List Char) :=
  ["normalizar_cantidad_unidad_decimales".data,
   "normalizar_cantidad_unidad_enteros".data,
   "separar_cantidad_producto".data,
   "normalizar_espacios_antes_producto".data,
   "normalizar_cantidad_punto_coma".data,
   "normalizar_cantidad_coma".data,
   "normalizar_punto_coma_mercancia".data,
   "limpiar_espacios_multiples".data,
   "patron_palabra_cantidad".data,
   "normalizar_cantidad_espacio".data]

/-- One step of the rule loop: absent name or empty pattern is a no-op,
an oracle error leaves the step's text unchanged. -/
def pasoRegla (σ : OraculoSub) (e : Reglas) (t : List Char) (nombre : List Char) : List Char :=
  match e.lookup nombre with
  | none => t
  | some cfg =>
    if cfg.patron = [] then t
    else
      match σ cfg.patron cfg.reemplazo t with
      | .ok t2 => t2
      | .error _ => t

/-- `aplicar_expresiones_regulares_ordenadas`, parameterised by the
fixed name sequence of the variant; ends with `texto.strip()`. -/
def aplicarExpresionesRegularesOrdenadas (orden : List (List Char)) (σ : OraculoSub)
    (e : Reglas) (t : List Char) : List Char :=
  pyStrip (orden.foldl (pasoRegla σ e) t)

/-! ## Symbol normalisation -/

/-- The hard-coded literal-replacement table of
`limpiar_y_normalizar_texto` (`extractor_llantas` lines 150–182), in
source order. -/
def reemplazosLl : List (List Char × List Char) :=
  [("|".data, ":".data),
   ("_".data, ":".data),
   ("=".data, ":".data),
   ("(".data, " ".data),
   (")".data, " ".data),
   ("PAIS".data, ", PAIS".data),
   ("P. ORIGEN:".data, ", PAIS:".data),
   ("CANTIDAD DECLARADA: ".data, ", DECLARADA :".data),
   ("CANTIDAD FACTURADA:".data, ", CANTIDAD: ".data),
   ("N O TIENE".data, "NO TIENE".data),
   ("NO TI ENE".data, "NO TIENE".data),
   ("NO TIEN E".data, "NO TIENE".data),
   ("NO TIE NE".data, "NO TIENE".data),
   (" WC".data, ", WC".data),
   ("REFERENCIA: ARANCELARIA".data, ", ARANCEL".data),
   ("REFERENCIA: ARANCELARI A".data, ", ARANCEL".data),
   ("PARTE NUMERO ".data, "".data),
   ("PA RTE NUMERO ".data, "".data),
   ("UNIDADES:".data, "UNIDADES.".data),
   ("MARCA: IMPORTADOR:".data, "".data),
   ("MODELO".data, ", MODELO".data),
   ("ITEM".data, ", ITEM".data),
   (", MARCA: SEGUN FACTURA".data, ", MARCA: ".data),
   ("SERIAL:".data, ", SERIAL:".data),
   ("YMARCA:".data, "Y, MARCA: ".data),
   ("U6224".data, "QU6224".data),
   ("U 6224".data, "QU6224".data),
   ("SEGUN ORDEN DE COMPRA".data, "".data),
   (". USO".data, ", USO".data),
   (" USO".data, ", USO".data),
   (" BATERIA".data, ", BATERIA".data),
   (";".data, ",".data),
   ("/".data, ",".data)]

/-- The hard-coded literal-replacement table of
`limpiar_y_normalizar_texto_kits` (`extractor_kits` lines 162–167). -/
def reemplazosKits : List (List Char × List Char) :=
  [("|".data, ":".data),
   ("_".data, ":".data),
   ("=".data, ":".data),
   ("(".data, " ".data),
   (")".data, " ".data),
   ("/".data, " ".data)]

/-- Apply a literal-replacement table in order. -/
def aplicarReemplazos (tabla : List (List Char × List Char)) (t : List Char) : List Char :=
  tabla.foldl (fun t2 pr => pyReplace t2 pr.1 pr.2) t

/-- The symbol normaliser of `extractor_llantas`: the literal chain of
lines 150–182. -/
def normalizarSimbolosLl (t : List Char) : List Char := aplicarReemplazos reemplazosLl t

/-- The symbol normaliser of `extractor_kits`: the literal chain of
lines 162–167. -/
def normalizarSimbolosKits (t : List Char) : List Char := aplicarReemplazos reemplazosKits t

/-- `limpiar_y_normalizar_texto` (`extractor_llantas` lines 145–193):
literal replacements, ordered rules, uppercase, whitespace collapse and
strip. -/
def limpiarYNormalizarTexto (σ : OraculoSub) (e : Reglas) (t : List Char) : List Char :=
  let t := normalizarSimbolosLl t
  let t := aplicarExpresionesRegularesOrdenadas ordenAplicacionLl σ e t
  let t := pyUpper t
  pyStrip (colapsarEspacios t)

/-- `limpiar_y_normalizar_texto_kits` (`extractor_kits` lines 151–175):
uppercase and collapse first, then literal replacements, ordered rules
and a final collapse/strip. -/
def limpiarYNormalizarTextoKits (σ : OraculoSub) (e : Reglas) (t : List Char) : List Char :=
  let t := pyUpper t
  let t := pyStrip (colapsarEspacios t)
  let t := normalizarSimbolosKits t
  let t := aplicarExpresionesRegularesOrdenadas ordenAplicacionKits σ e t
  pyStrip (colapsarEspacios t)

/-! ## Dictionary tagging -/

/-- The dictionary consumed by `extractor_llantas` (tag-insertion lists
and literal → canonical maps, each in configuration order). -/
structure DiccionarioLl where
  segun_variants : List (List Char) := []
  factura_variants : List (List Char) := []
  referencia_variants : List (List Char) := []
  marca_variants : List (List Char) := []
  cantidad_variants : List (List Char) := []
  codigo_variants : List (List Char) := []
  producto_variants : List (List Char) := []
  marcas_conocidas : List (List Char × List Char) := []
  referencia_modelo_variants : List (List Char × List Char) := []

/-- The dictionary consumed by `extractor_kits`.  `unidades_medida` is
loaded but its replacement loop is commented out in the source. -/
structure DiccionarioKits where
  segun_variants : List (List Char) := []
  producto_variants : List (List Char) := []
  marca_variants : List (List Char) := []
  referencia_variants : List (List Char) := []
  modelo_variants : List (List Char) := []
  cantidad_variants : List (List Char) := []
  cadena_variants : List (List Char) := []
  kit_variants : List (List Char) := []
  paso_variants : List (List Char) := []
  marcas_conocidas : List (List Char × List Char) := []
  partes_variants : List (List Char × List Char) := []
  referencia_modelo_variants : List (List Char × List Char) := []
  referencia_segun_variant : List (List Char × List Char) := []
  unidades_medida : List (List Char) := []

/-- One tag-insertion pass: `for variant in lista: if variant in texto:
texto = texto.replace(variant, etiqueta)`. -/
def pasarVariantes (lista : List (List Char)) (etiqueta : List Char) (t : List Char) : List Char :=
  lista.foldl (fun t2 v => if contiene t2 v then pyReplace t2 v etiqueta else t2) t

/-- One correction pass over a literal → canonical map: a key present
in the text is replaced by its value when that value is non-empty. -/
def pasarCorrecciones (m : List (List Char × List Char)) (t : List Char) : List Char :=
  m.foldl (fun t2 kv => if contiene t2 kv.1 ∧ kv.2 ≠ [] then pyReplace t2 kv.1 kv.2 else t2) t

/-- `aplicar_reemplazos_diccionario` (`extractor_llantas` lines
195–255), passes in source order. -/
def aplicarReemplazosDiccionario (t : List Char) (dic : DiccionarioLl) : List Char :=
  let t := pasarVariantes dic.segun_variants " SEGUN ".data t
  let t := pasarVariantes dic.factura_variants " FACTURA ".data t
  let t := pasarVariantes dic.referencia_variants ", REFERENCIA: ".data t
  let t := pasarVariantes dic.marca_variants ", MARCA: ".data t
  let t := pasarVariantes dic.cantidad_variants ", CANTIDAD: ".data t
  let t := pasarVariantes dic.codigo_variants ", CODIGO: ".data t
  let t := pasarVariantes dic.producto_variants ", PRODUCTO: ".data t
  let t := pasarCorrecciones dic.marcas_conocidas t
  pasarCorrecciones dic.referencia_modelo_variants t

/-- `aplicar_reemplazos_diccionario_kits` (`extractor_kits` lines
178–282), passes in source order. -/
def aplicarReemplazosDiccionarioKits (t : List Char) (dic : DiccionarioKits) : List Char :=
  let t := pasarVariantes dic.segun_variants "SEGUN".data t
  let t := pasarVariantes dic.producto_variants ", PRODUCTO:".data t
  let t := pasarVariantes dic.marca_variants ", MARCA:".data t
  let t := pasarVariantes dic.referencia_variants ", REFERENCIA:".data t
  let t := pasarVariantes dic.modelo_variants ", MODELO:".data t
  let t := pasarVariantes dic.cantidad_variants ", CANTIDAD:".data t
  let t := pasarVariantes dic.cadena_variants ", CADENA:".data t
  let t := pasarVariantes dic.kit_variants ", KIT:".data t
  let t := pasarVariantes dic.paso_variants ", PASO:".data t
  let t := pasarCorrecciones dic.marcas_conocidas t
  let t := pasarCorrecciones dic.partes_variants t
  let t := pasarCorrecciones dic.referencia_modelo_variants t
  pasarCorrecciones dic.referencia_segun_variant t

/-! ## Field extractors -/

/-- Shared candidate-collection loop of the string-field extractors:
union the group captures of every pattern, strip each candidate and its
trailing punctuation, keep candidates longer than `minLen` whose
uppercase form is not blacklisted, apply `post` (identity except for
the llantas reference corrections) and add the result to the set. -/
def recogerCandidatos (pats : List RE) (t : List Char) (minLen : Nat)
    (listaNegra : List (List Char)) (post : List Char → List Char) : List (List Char) :=
  pats.foldl (fun acc pat =>
    (buscarTodos pat t).foldl (fun acc2 m =>
      let cand := quitarColaPuntuacion (pyStrip m)
      if cand ≠ [] ∧ cand.length > minLen ∧ pyUpper cand ∉ listaNegra then
        agregarConjunto acc2 (post cand)
      else acc2) acc) []

/-- `aplicar_correcciones_referencia` (`extractor_llantas` lines
257–270): exact (case/strip-insensitive) dictionary hit wins, otherwise
dash and whitespace normalisation. -/
def aplicarCorreccionesReferencia (ref : List Char) (dic : DiccionarioLl) : List Char :=
  match dic.referencia_modelo_variants.find?
      (fun kv => pyUpper (pyStrip ref) = pyUpper (pyStrip kv.1)) with
  | some kv => kv.2
  | none => pyStrip (colapsarEspacios (normalizarGuiones ref))

/-- `extraer_referencias` (`extractor_llantas` lines 272–293). -/
def extraerReferencias (t : List Char) (dic : DiccionarioLl) : List (List Char) :=
  let refs := recogerCandidatos patronesReferenciaLl t 1
    ["NO TIENE".data, "SEGUN FACTURA".data]
    (fun r => aplicarCorreccionesReferencia r dic)
  if refs = [] then ["NO TIENE".data] else refs

/-- `extraer_marcas` (`extractor_llantas` lines 295–315). -/
def extraerMarcas (t : List Char) : List (List Char) :=
  let marcas := recogerCandidatos patronesMarcaLl t 1 ["NO TIENE".data] id
  if marcas = [] then ["NO TIENE".data] else marcas

/-- The candidate set built by `extraer_cantidades` (`extractor_llantas`
lines 321–342): `int(match)` kept when strictly positive. -/
def conjuntoCantidadesLl (t : List Char) : List Int :=
  patronesCantidadLl.foldl (fun acc pat =>
    (buscarTodos pat t).foldl (fun acc2 m =>
      match pyInt m with
      | some n => if n > 0 then agregarConjunto acc2 n else acc2
      | none => acc2) acc) []

/-- `extraer_cantidades` (`extractor_llantas` lines 317–344).  The
source returns the *integer* `0` when nothing matched and a sorted list
otherwise; `none` models that integer sentinel. -/
def extraerCantidades (t : List Char) : Option (List Int) :=
  if conjuntoCantidadesLl t = [] then none
  else some ((conjuntoCantidadesLl t).insertionSort (fun a b => a ≤ b))

/-- `extraer_productos` (`extractor_kits` lines 285–305). -/
def extraerProductos (t : List Char) : List (List Char) :=
  let productos := recogerCandidatos patronesProductoKits t 2
    ["NO TIENE".data, "NO ESPECIFICADO".data] id
  if productos = [] then ["NO ESPECIFICADO".data] else productos

/-- `extraer_marcas_kits` (`extractor_kits` lines 308–328). -/
def extraerMarcasKits (t : List Char) : List (List Char) :=
  let marcas := recogerCandidatos patronesMarcaKits t 1
    ["NO TIENE".data, "NO ESPECIFICADA".data] id
  if marcas = [] then ["NO ESPECIFICADA".data] else marcas

/-- `extraer_referencias_kits` (`extractor_kits` lines 331–351). -/
def extraerReferenciasKits (t : List Char) : List (List Char) :=
  let refs := recogerCandidatos patronesReferenciaKits t 1
    ["NO TIENE".data, "NO ESPECIFICADA".data] id
  if refs = [] then ["NO ESPECIFICADA".data] else refs

/-- `extraer_modelos` (`extractor_kits` lines 354–374). -/
def extraerModelos (t : List Char) : List (List Char) :=
  let modelos := recogerCandidatos patronesModeloKits t 1
    ["NO TIENE".data, "NO ESPECIFICADO".data] id
  if modelos = [] then ["NO ESPECIFICADO".data] else modelos

/-- The candidate set built by `extraer_cantidades_kits`
(`extractor_kits` lines 381–401): each match is read as a decimal
(`float`), kept when strictly positive, and truncated (`int`) into the
set. -/
def conjuntoCantidadesKits (t : List Char) : List Int :=
  patronesCantidadKits.foldl (fun acc pat =>
    (buscarTodos pat t).foldl (fun acc2 m =>
      match parseDecimal m with
      | some (neg, ent, fr) =>
        if neg = false ∧ decimalPositivo ent fr = true then
          agregarConjunto acc2 (valorDigitos ent : Int)
        else acc2
      | none => acc2) acc) []

/-- `extraer_cantidades_kits` (`extractor_kits` lines 377–403): the
sorted candidate set, or `[0]` when it is empty. -/
def extraerCantidadesKits (t : List Char) : List Int :=
  if conjuntoCantidadesKits t = [] then [0]
  else (conjuntoCantidadesKits t).insertionSort (fun a b => a ≤ b)

/-- `detectar_cadenas` (`extractor_kits` lines 406–422). -/
def detectarCadenas (t : List Char) : Bool :=
  patronesCadena.any fun p => hayCoincidencia p t

/-- `extraer_pasos_medidas` (`extractor_kits` lines 425–447): plain
list accumulation (no set), `['N/A']` when empty. -/
def extraerPasosMedidas (t : List Char) : List (List Char) :=
  let pasos := patronesPaso.foldl (fun acc pat =>
    (buscarTodos pat t).foldl (fun acc2 m =>
      let paso := pyStrip m
      if paso ≠ [] ∧ paso.length > 1 then acc2 ++ [paso] else acc2) acc) []
  if pasos = [] then ["N/A".data] else pasos

/-! ## Record alignment and per-line orchestration -/

/-- A dynamically-typed Python value: the llantas record's quantity
field holds either an extracted integer or the raw declared-quantity
string. -/
inductive Valor where
  | int (n : Int)
  | str (s : List Char)
deriving DecidableEq

/-- The indexing idiom `xs[min(i, len(xs)-1)] if xs else d` of both
aligner loops. -/
def elige {α : Type} (xs : List α) (d : α) (i : Nat) : α :=
  if xs.isEmpty then d else xs.getD (min i (xs.length - 1)) d

/-- One output record of `extractor_llantas` (dict of
`procesar_linea_importacion`, lines 382–388). -/
structure RegistroLl where
  numero_aceptacion : List Char
  referencia : List Char
  marca : List Char
  cantidad : Valor
  cantidad_original : List Char
deriving DecidableEq

/-- The record built for slot `i` of the llantas aligner loop (lines
377–388). -/
def registroLlEn (na : List Char) (refs marcas : List (List Char)) (cants : List Valor)
    (co : List Char) (coInt : Int) (i : Nat) : RegistroLl :=
  { numero_aceptacion := na
    referencia := elige refs "NO TIENE".data i
    marca := elige marcas "NO TIENE".data i
    cantidad := elige cants (Valor.int coInt) i
    cantidad_original := co }

/-- `max_elementos` of `extractor_llantas` (line 375): references,
brands and quantities. -/
def maxElementosLl (refs marcas : List (List Char)) (cants : List Valor) : Nat :=
  max (max refs.length marcas.length) (max cants.length 1)

/-- The llantas aligner loop (lines 374–391): one slot per index,
appending only records not already present. -/
def crearRegistrosLl (na : List Char) (refs marcas : List (List Char)) (cants : List Valor)
    (co : List Char) (coInt : Int) : List RegistroLl :=
  (List.range (maxElementosLl refs marcas cants)).foldl
    (fun acc i =>
      let reg := registroLlEn na refs marcas cants co coInt i
      if reg ∈ acc then acc else acc ++ [reg]) []

/-- One output record of `extractor_kits` (dict of
`procesar_linea_kits`, lines 499–513). -/
structure RegistroKits where
  numero_aceptacion : List Char
  producto : List Char
  marca : List Char
  referencia : List Char
  modelo : List Char
  cantidad : Int
  unidad : List Char
  es_cadena : List Char
  pasos_medidas : List Char
  cantidad_original : List Char
  fecha_procesamiento : List Char
deriving DecidableEq

/-- The record built for slot `i` of the kits aligner loop (lines
492–513).  `pasos_medidas` is the hard-coded literal `'N/A'` of line
508 (the joined extractor output of line 510 is commented out). -/
def registroKitsEn (na : List Char) (productos marcas referencias modelos : List (List Char))
    (cantidades : List Int) (esCadena : Bool) (coInt : Int) (co fecha : List Char)
    (i : Nat) : RegistroKits :=
  { numero_aceptacion := na
    producto := elige productos "NO ESPECIFICADO".data i
    marca := elige marcas "NO ESPECIFICADA".data i
    referencia := elige referencias "NO ESPECIFICADA".data i
    modelo := elige modelos "NO ESPECIFICADO".data i
    cantidad := elige cantidades coInt i
    unidad := "UNIDADES".data
    es_cadena := if esCadena then "SÍ".data else "NO".data
    pasos_medidas := "N/A".data
    cantidad_original := co
    fecha_procesamiento := fecha }

/-- `max_elementos` of `extractor_kits` (line 490): products, brands,
references and models — the quantity list is *not* one of the
arguments of this `max`. -/
def maxElementosKits (productos marcas referencias modelos : List (List Char)) : Nat :=
  max (max (max productos.length marcas.length) (max referencias.length modelos.length)) 1

/-- The kits aligner loop (lines 489–516). -/
def crearRegistrosKits (na : List Char) (productos marcas referencias modelos : List (List Char))
    (cantidades : List Int) (esCadena : Bool) (coInt : Int) (co fecha : List Char) :
    List RegistroKits :=
  (List.range (maxElementosKits productos marcas referencias modelos)).foldl
    (fun acc i =>
      let reg := registroKitsEn na productos marcas referencias modelos cantidades esCadena coInt co fecha i
      if reg ∈ acc then acc else acc ++ [reg]) []

/-- First-seen deduplication of a list (the `if x not in acc:
acc.append(x)` idiom shared by both aligner loops and the final
cross-file pass). -/
def pyDedup {α : Type} [DecidableEq α] (l : List α) : List α :=
  l.foldl (fun a x => if x ∈ a then a else a ++ [x]) []

/-- The llantas slot sequence before intra-line deduplication: one
record per index `0 ≤ i < max_elementos`. -/
def slotsLl (na : List Char) (refs marcas : List (List Char)) (cants : List Valor)
    (co : List Char) (coInt : Int) : List RegistroLl :=
  (List.range (maxElementosLl refs marcas cants)).map (registroLlEn na refs marcas cants co coInt)

/-- The kits slot sequence before intra-line deduplication. -/
def slotsKits (na : List Char) (productos marcas referencias modelos : List (List Char))
    (cantidades : List Int) (esCadena : Bool) (coInt : Int) (co fecha : List Char) :
    List RegistroKits :=
  (List.range (maxElementosKits productos marcas referencias modelos)).map
    (registroKitsEn na productos marcas referencias modelos cantidades esCadena coInt co fecha)

/-- Python `str(cantidades)` on the llantas extraction result (line
364): the decimal repr of the integer sentinel, or the list repr
`[a, b, ...]`. -/
def reprCantidades : Option (List Int) → List Char
  | none => "0".data
  | some xs => '[' :: (List.intercalate ", ".data (xs.map fun n => (toString n).data)) ++ [']']

/-- The tagged text handed to every llantas extractor. -/
def textoProcesadoLl (σ : OraculoSub) (e : Reglas) (dic : DiccionarioLl)
    (descripcion : List Char) : List Char :=
  aplicarReemplazosDiccionario (limpiarYNormalizarTexto σ e descripcion) dic

/-- `procesar_linea_importacion` (`extractor_llantas` lines 346–393).
Note two peculiarities of the source, modelled as written: the
"cantidad original" cleaning applies `str(cantidades)` — the repr of
the *extracted* quantity collection — rather than the declared
quantity, and the zero-sentinel fallback inserts the raw declared
quantity *string* into the slot list. -/
def procesarLineaImportacion (σ : OraculoSub) (e : Reglas) (dic : DiccionarioLl)
    (descripcion na co : List Char) : List RegistroLl :=
  let t := textoProcesadoLl σ e dic descripcion
  let referencias := extraerReferencias t dic
  let marcas := extraerMarcas t
  let cantidades0 := extraerCantidades t
  let cantidadLimpia := subGrupo patronCeros00Ll (reprCantidades cantidades0)
  let coInt := (pyFloatTrunc cantidadLimpia).getD 0
  let cantidades : List Valor :=
    match cantidades0 with
    | none => [Valor.str co]
    | some xs => xs.map Valor.int
  crearRegistrosLl na referencias marcas cantidades co coInt

/-- The tagged text handed to every kits extractor. -/
def textoProcesadoKits (σ : OraculoSub) (e : Reglas) (dic : DiccionarioKits)
    (descripcion : List Char) : List Char :=
  aplicarReemplazosDiccionarioKits (limpiarYNormalizarTextoKits σ e descripcion) dic

/-- `procesar_linea_kits` (`extractor_kits` lines 450–518).  The
debug-file write (lines 483–486) is omitted as I/O; `fecha` models the
`datetime.now()` timestamp, constant across the slots of one line. -/
def procesarLineaKits (σ : OraculoSub) (e : Reglas) (dic : DiccionarioKits)
    (descripcion na co fecha : List Char) : List RegistroKits :=
  let t := textoProcesadoKits σ e dic descripcion
  let productos := extraerProductos t
  let marcas := extraerMarcasKits t
  let referencias := extraerReferenciasKits t
  let modelos := extraerModelos t
  let cantidades := extraerCantidadesKits t
  let esCadena := detectarCadenas t
  let _pasosMedidas := extraerPasosMedidas t
  let cantidadLimpia := subGrupo patronCeros00Kits co
  let coInt := (pyFloatTrunc cantidadLimpia).getD 0
  let cantidades := if cantidades = [] ∨ cantidades = [0] then [coInt] else cantidades
  crearRegistrosKits na productos marcas referencias modelos cantidades esCadena coInt co fecha

/-! ## The per-file line loop -/

/-- Running tallies of `procesar_archivo_importacion` /
`procesar_archivo_kits`. -/
structure EstadoArchivo (R : Type) where
  resultados : List R
  procesadas : Nat
  errores : Nat
deriving DecidableEq

/-- One iteration of the file loop (llantas lines 419–445, kits lines
553–578): a stripped-blank line is skipped outright; a line with at
least 4 pipe-split fields is processed and counted; otherwise the error
tally is incremented.  Field extraction from a line follows the source:
first part, middle parts rejoined with `'|'`, last-but-one part. -/
def pasoArchivo {R : Type} (procLinea : List Char → List Char → List Char → List R)
    (st : EstadoArchivo R) (linea : List Char) : EstadoArchivo R :=
  let l := pyStrip linea
  if l = [] then st
  else
    let partes := dividirPipe l
    if partes.length ≥ 4 then
      let na := pyStrip (partes.getD 0 [])
      let descripcion := pyStrip (unirPipe ((partes.drop 1).take (partes.length - 3)))
      let co := pyStrip (partes.getD (partes.length - 2) [])
      { resultados := st.resultados ++ procLinea descripcion na co
        procesadas := st.procesadas + 1
        errores := st.errores }
    else { st with errores := st.errores + 1 }

/-- The llantas per-file loop over the input lines. -/
def procesarLineasLl (σ : OraculoSub) (e : Reglas) (dic : DiccionarioLl)
    (lineas : List (List Char)) (st : EstadoArchivo RegistroLl) : EstadoArchivo RegistroLl :=
  lineas.foldl (pasoArchivo (procesarLineaImportacion σ e dic)) st

/-- The kits per-file loop over the input lines. -/
def procesarLineasKits (σ : OraculoSub) (e : Reglas) (dic : DiccionarioKits) (fecha : List Char)
    (lineas : List (List Char)) (st : EstadoArchivo RegistroKits) : EstadoArchivo RegistroKits :=
  lineas.foldl (pasoArchivo fun d na co => procesarLineaKits σ e dic d na co fecha) st

/-- A substitution oracle that leaves text unchanged (used to
instantiate runs whose rule set is empty, where the oracle is never
consulted). -/
def oraculoTrivial : OraculoSub := fun _ _ t => .ok t

/-- The empty llantas dictionary. -/
def dicVacioLl : DiccionarioLl := {}

/-- The empty kits dictionary. -/
def dicVacioKits : DiccionarioKits := {}

/-! ## Helper lemmas -/

theorem foldl_conserva {α β : Type} (Q : α → Prop) (g : α → β → α)
    (hg : ∀ a b, Q a → Q (g a b)) : ∀ (l : List β) (a : α), Q a → Q (l.foldl g a) := by
  intro l
  induction l with
  | nil => intro a ha; exact ha
  | cons x xs ih => intro a ha; exact ih _ (hg _ _ ha)

theorem mem_agregarConjunto {α : Type} [DecidableEq α] {xs : List α} {x y : α} :
    y ∈ agregarConjunto xs x ↔ y ∈ xs ∨ y = x := by
  unfold agregarConjunto
  by_cases h : x ∈ xs
  · rw [if_pos h]
    constructor
    · exact fun hy => .inl hy
    · rintro (hy | rfl)
      · exact hy
      · exact h
  · rw [if_neg h]
    simp [List.mem_append]

theorem nodup_agregarConjunto {α : Type} [DecidableEq α] {xs : List α} (x : α)
    (h : xs.Nodup) : (agregarConjunto xs x).Nodup := by
  unfold agregarConjunto
  by_cases hx : x ∈ xs
  · rwa [if_pos hx]
  · rw [if_neg hx]
    simpa [List.nodup_append] using ⟨h, fun hmem => hx hmem⟩

/-- The candidate set of the llantas quantity extractor is
duplicate-free and strictly positive throughout its construction. -/
theorem conjuntoCantidadesLl_prop (t : List Char) :
    (conjuntoCantidadesLl t).Nodup ∧ ∀ x ∈ conjuntoCantidadesLl t, 1 ≤ x := by
  unfold conjuntoCantidadesLl
  refine foldl_conserva (fun a : List Int => a.Nodup ∧ ∀ x ∈ a, 1 ≤ x) _ ?_ _ _ ⟨List.nodup_nil, by simp⟩
  intro a pat ha
  refine foldl_conserva (fun a : List Int => a.Nodup ∧ ∀ x ∈ a, 1 ≤ x) _ ?_ _ _ ha
  intro a2 m ha2
  match hm : pyInt m with
  | none => exact ha2
  | some n =>
    show (if n > 0 then agregarConjunto a2 n else a2).Nodup ∧
      ∀ x ∈ (if n > 0 then agregarConjunto a2 n else a2), 1 ≤ x
    by_cases hn : n > 0
    · rw [if_pos hn]
      refine ⟨nodup_agregarConjunto _ ha2.1, fun x hx => ?_⟩
      rcases mem_agregarConjunto.mp hx with hx2 | rfl
      · exact ha2.2 x hx2
      · omega
    · rwa [if_neg hn]

/-- The candidate set of the kits quantity extractor is duplicate-free
and non-negative throughout its construction. -/
theorem conjuntoCantidadesKits_prop (t : List Char) :
    (conjuntoCantidadesKits t).Nodup ∧ ∀ x ∈ conjuntoCantidadesKits t, 0 ≤ x := by
  unfold conjuntoCantidadesKits
  refine foldl_conserva (fun a : List Int => a.Nodup ∧ ∀ x ∈ a, 0 ≤ x) _ ?_ _ _ ⟨List.nodup_nil, by simp⟩
  intro a pat ha
  refine foldl_conserva (fun a : List Int => a.Nodup ∧ ∀ x ∈ a, 0 ≤ x) _ ?_ _ _ ha
  intro a2 m ha2
  match hm : parseDecimal m with
  | none => exact ha2
  | some (neg, ent, fr) =>
    show (if neg = false ∧ decimalPositivo ent fr = true then
        agregarConjunto a2 (valorDigitos ent : Int) else a2).Nodup ∧
      ∀ x ∈ (if neg = false ∧ decimalPositivo ent fr = true then
        agregarConjunto a2 (valorDigitos ent : Int) else a2), 0 ≤ x
    by_cases hc : neg = false ∧ decimalPositivo ent fr = true
    · rw [if_pos hc]
      refine ⟨nodup_agregarConjunto _ ha2.1, fun x hx => ?_⟩
      rcases mem_agregarConjunto.mp hx with hx2 | rfl
      · exact ha2.2 x hx2
      · exact Int.natCast_nonneg _
    · rwa [if_neg hc]

/-- Members of the first-seen deduplication come from the accumulator
or the traversed list. -/
theorem mem_pyDedup_aux {α : Type} [DecidableEq α] :
    ∀ (l : List α) (acc : List α) (r : α),
      r ∈ l.foldl (fun a x => if x ∈ a then a else a ++ [x]) acc → r ∈ acc ∨ r ∈ l := by
  intro l
  induction l with
  | nil => intro acc r h; exact .inl h
  | cons x xs ih =>
    intro acc r h
    rw [List.foldl_cons] at h
    rcases ih _ r h with h2 | h2
    · by_cases hx : x ∈ acc
      · rw [if_pos hx] at h2
        exact .inl h2
      · rw [if_neg hx] at h2
        rcases List.mem_append.mp h2 with h3 | h3
        · exact .inl h3
        · exact .inr (by simpa using .inl (List.mem_singleton.mp h3))
    · exact .inr (List.mem_cons_of_mem _ h2)

theorem mem_pyDedup {α : Type} [DecidableEq α] {l : List α} {r : α}
    (h : r ∈ pyDedup l) : r ∈ l := by
  rcases mem_pyDedup_aux l [] r h with h2 | h2
  · simp at h2
  · exact h2

/-- The kits aligner loop is the first-seen deduplication of the slot
sequence. -/
theorem crearRegistrosKits_eq_dedup (na : List Char)
    (productos marcas referencias modelos : List (List Char)) (cantidades : List Int)
    (esCadena : Bool) (coInt : Int) (co fecha : List Char) :
    crearRegistrosKits na productos marcas referencias modelos cantidades esCadena coInt co fecha =
      pyDedup (slotsKits na productos marcas referencias modelos cantidades esCadena coInt co fecha) := by
  unfold crearRegistrosKits pyDedup slotsKits
  rw [List.foldl_map]

/-- The llantas aligner loop is the first-seen deduplication of the
slot sequence. -/
theorem crearRegistrosLl_eq_dedup (na : List Char) (refs marcas : List (List Char))
    (cants : List Valor) (co : List Char) (coInt : Int) :
    crearRegistrosLl na refs marcas cants co coInt =
      pyDedup (slotsLl na refs marcas cants co coInt) := by
  unfold crearRegistrosLl pyDedup slotsLl
  rw [List.foldl_map]

/-- A slot pick from a non-empty list is a member of that list. -/
theorem elige_mem {α : Type} (xs : List α) (d : α) (i : Nat) (h : xs ≠ []) :
    elige xs d i ∈ xs := by
  unfold elige
  rw [if_neg (by simpa using h)]
  have hlen : 0 < xs.length := List.length_pos.mpr h
  have hidx : min i (xs.length - 1) < xs.length := by omega
  rw [List.getD_eq_getElem xs d hidx]
  exact List.getElem_mem hidx

/-- Within range, the slot pick is plain indexing. -/
theorem elige_en_rango {α : Type} (xs : List α) (d : α) (i : Nat) (hi : i < xs.length) :
    elige xs d i = xs.getD i d := by
  unfold elige
  have hne : ¬xs.isEmpty = true := by
    cases xs with
    | nil => simp at hi
    | cons a l => simp
  rw [if_neg hne]
  congr 1
  omega

/-- Beyond the shorter list's range, the slot pick repeats its last
element (the clamp-to-last policy). -/
theorem elige_ultimo {α : Type} (xs : List α) (d : α) (i : Nat) (h : xs ≠ [])
    (hi : xs.length - 1 ≤ i) : some (elige xs d i) = xs.getLast? := by
  unfold elige
  rw [if_neg (by simpa using h)]
  have hlen : 0 < xs.length := List.length_pos.mpr h
  have hmin : min i (xs.length - 1) = xs.length - 1 := by omega
  have hidx : xs.length - 1 < xs.length := by omega
  rw [hmin, List.getLast?_eq_getElem?, List.getD_eq_getElem?_getD,
    List.getElem?_eq_getElem hidx]
  rfl

/-- Full characterisation of the kits quantity extractor's output:
never empty, ascending, duplicate-free, non-negative. -/
theorem extraerCantidadesKits_prop (t : List Char) :
    extraerCantidadesKits t ≠ [] ∧
      List.Sorted (fun a b : Int => a ≤ b) (extraerCantidadesKits t) ∧
      (extraerCantidadesKits t).Nodup ∧ ∀ x ∈ extraerCantidadesKits t, 0 ≤ x := by
  unfold extraerCantidadesKits
  by_cases h : conjuntoCantidadesKits t = []
  · rw [if_pos h]
    refine ⟨by simp, by simp, by simp, ?_⟩
    intro x hx
    simp at hx
    omega
  · rw [if_neg h]
    have hp := conjuntoCantidadesKits_prop t
    have hperm := List.perm_insertionSort (fun a b : Int => a ≤ b) (conjuntoCantidadesKits t)
    refine ⟨?_, List.sorted_insertionSort _ _, ?_, ?_⟩
    · intro h0
      exact h (List.Perm.eq_nil (h0 ▸ hperm).symm)
    · exact hperm.nodup_iff.mpr hp.1
    · intro x hx
      exact hp.2 x (hperm.mem_iff.mp hx)

/-- Full characterisation of the llantas quantity extractor's output:
the integer sentinel (`none`), or a non-empty ascending duplicate-free
list of integers at least 1. -/
theorem extraerCantidades_prop (t : List Char) :
    extraerCantidades t = none ∨
      ∃ xs, extraerCantidades t = some xs ∧ xs ≠ [] ∧
        List.Sorted (fun a b : Int => a ≤ b) xs ∧ xs.Nodup ∧ ∀ x ∈ xs, 1 ≤ x := by
  unfold extraerCantidades
  by_cases h : conjuntoCantidadesLl t = []
  · exact .inl (if_pos h)
  · rw [if_neg h]
    have hp := conjuntoCantidadesLl_prop t
    have hperm := List.perm_insertionSort (fun a b : Int => a ≤ b) (conjuntoCantidadesLl t)
    refine .inr ⟨_, rfl, ?_, List.sorted_insertionSort _ _, ?_, ?_⟩
    · intro h0
      exact h (List.Perm.eq_nil (h0 ▸ hperm).symm)
    · exact hperm.nodup_iff.mpr hp.1
    · intro x hx
      exact hp.2 x (hperm.mem_iff.mp hx)

/-- Single-character substitution (`str.replace` with one-character
pattern and replacement acts pointwise). -/
def sustituye (p r c : Char) : Char := if c = p then r else c

theorem reemplazarAux_unchar (p r : Char) :
    ∀ (n : Nat) (s : List Char), s.length ≤ n →
      reemplazarAux [p] [r] n s = s.map (sustituye p r) := by
  intro n
  induction n with
  | zero =>
    intro s hs
    have : s = [] := List.eq_nil_of_length_eq_zero (by omega)
    subst this
    rfl
  | succ n ih =>
    intro s hs
    cases s with
    | nil => rfl
    | cons c cs =>
      show (if [p].isPrefixOf (c :: cs) then
          [r] ++ reemplazarAux [p] [r] n ((c :: cs).drop 1)
        else c :: reemplazarAux [p] [r] n cs) = _
      have hpre : [p].isPrefixOf (c :: cs) = (p == c) := by
        simp [List.isPrefixOf]
      by_cases h : p = c
      · subst h
        rw [hpre, if_pos (by simp)]
        have hlen : cs.length ≤ n := by simpa using hs
        simp [ih cs hlen, sustituye]
      · rw [hpre, if_neg (by simp [h])]
        have hlen : cs.length ≤ n := by simpa using hs
        have hcp : ¬c = p := fun hc => h hc.symm
        simp [ih cs hlen, sustituye, hcp]

theorem pyReplace_unchar (p r : Char) (s : List Char) :
    pyReplace s [p] [r] = s.map (sustituye p r) := by
  unfold pyReplace
  rw [if_neg (by simp)]
  exact reemplazarAux_unchar p r s.length s (le_refl _)

/-- The pointwise action of the kits literal-replacement chain. -/
def gKits (c : Char) : Char :=
  sustituye '/' ' ' (sustituye ')' ' ' (sustituye '(' ' '
    (sustituye '=' ':' (sustituye '_' ':' (sustituye '|' ':' c)))))

theorem gKits_aplicado (c : Char) :
    sustituye '/' ' ' (sustituye ')' ' ' (sustituye '(' ' '
      (sustituye '=' ':' (sustituye '_' ':' (sustituye '|' ':' c))))) = gKits c := by
  unfold gKits
  rfl

theorem mapas_gKits : ∀ s : List Char,
    List.map (sustituye '/' ' ') (List.map (sustituye ')' ' ') (List.map (sustituye '(' ' ')
      (List.map (sustituye '=' ':') (List.map (sustituye '_' ':')
        (List.map (sustituye '|' ':') s))))) = s.map gKits := by
  intro s
  induction s with
  | nil => simp only [List.map_nil]
  | cons c cs ih =>
    simp only [List.map_cons]
    rw [ih, gKits_aplicado]

theorem normalizarSimbolosKits_map (s : List Char) :
    normalizarSimbolosKits s = s.map gKits := by
  have h1 : ("|".data : List Char) = ['|'] := rfl
  have h2 : ("_".data : List Char) = ['_'] := rfl
  have h3 : ("=".data : List Char) = ['='] := rfl
  have h4 : ("(".data : List Char) = ['('] := rfl
  have h5 : (")".data : List Char) = [')'] := rfl
  have h6 : ("/".data : List Char) = ['/'] := rfl
  have h7 : (":".data : List Char) = [':'] := rfl
  have h8 : (" ".data : List Char) = [' '] := rfl
  unfold normalizarSimbolosKits aplicarReemplazos reemplazosKits
  simp only [List.foldl_cons, List.foldl_nil, h1, h2, h3, h4, h5, h6, h7, h8]
  rw [pyReplace_unchar, pyReplace_unchar, pyReplace_unchar, pyReplace_unchar,
    pyReplace_unchar, pyReplace_unchar]
  exact mapas_gKits s

theorem gKits_casos (c : Char) : gKits c = ':' ∨ gKits c = ' ' ∨ gKits c = c := by
  by_cases h1 : c = '|'
  · subst h1; left; decide
  by_cases h2 : c = '_'
  · subst h2; left; decide
  by_cases h3 : c = '='
  · subst h3; left; decide
  by_cases h4 : c = '('
  · subst h4; right; left; decide
  by_cases h5 : c = ')'
  · subst h5; right; left; decide
  by_cases h6 : c = '/'
  · subst h6; right; left; decide
  right; right
  unfold gKits sustituye
  rw [if_neg h1, if_neg h2, if_neg h3, if_neg h4, if_neg h5, if_neg h6]

theorem gKits_idem (c : Char) : gKits (gKits c) = gKits c := by
  rcases gKits_casos c with h | h | h
  · rw [h]; decide
  · rw [h]; decide
  · rw [h]; exact h

theorem map_gKits_idem (s : List Char) : (s.map gKits).map gKits = s.map gKits := by
  induction s with
  | nil => simp only [List.map_nil]
  | cons c cs ih =>
    simp only [List.map_cons]
    rw [ih, gKits_idem]

/-- The kits literal-replacement chain is idempotent. -/
theorem normalizarSimbolosKits_idem (s : List Char) :
    normalizarSimbolosKits (normalizarSimbolosKits s) = normalizarSimbolosKits s := by
  rw [normalizarSimbolosKits_map, normalizarSimbolosKits_map, map_gKits_idem]

/-- Every member of the kits aligner's output is the record of some
slot index. -/
theorem mem_crearRegistrosKits {na : List Char}
    {productos marcas referencias modelos : List (List Char)} {cantidades : List Int}
    {esCadena : Bool} {coInt : Int} {co fecha : List Char} {r : RegistroKits}
    (h : r ∈ crearRegistrosKits na productos marcas referencias modelos cantidades esCadena coInt co fecha) :
    ∃ i, r = registroKitsEn na productos marcas referencias modelos cantidades esCadena coInt co fecha i := by
  rw [crearRegistrosKits_eq_dedup] at h
  have h2 := mem_pyDedup h
  unfold slotsKits at h2
  rcases List.mem_map.mp h2 with ⟨i, _, rfl⟩
  exact ⟨i, rfl⟩

/-- Every member of the llantas aligner's output is the record of some
slot index. -/
theorem mem_crearRegistrosLl {na : List Char} {refs marcas : List (List Char)}
    {cants : List Valor} {co : List Char} {coInt : Int} {r : RegistroLl}
    (h : r ∈ crearRegistrosLl na refs marcas cants co coInt) :
    ∃ i, r = registroLlEn na refs marcas cants co coInt i := by
  rw [crearRegistrosLl_eq_dedup] at h
  have h2 := mem_pyDedup h
  unfold slotsLl at h2
  rcases List.mem_map.mp h2 with ⟨i, _, rfl⟩
  exact ⟨i, rfl⟩

/-- With every candidate list a singleton, the kits aligner yields
exactly one record. -/
theorem crearRegistrosKits_singletons (na a b c d : List Char) (q : Int) (ec : Bool)
    (coInt : Int) (co fecha : List Char) :
    crearRegistrosKits na [a] [b] [c] [d] [q] ec coInt co fecha =
      [{ numero_aceptacion := na, producto := a, marca := b, referencia := c, modelo := d,
         cantidad := q, unidad := "UNIDADES".data,
         es_cadena := if ec then "SÍ".data else "NO".data,
         pasos_medidas := "N/A".data, cantidad_original := co, fecha_procesamiento := fecha }] := by
  have hr : List.range 1 = [0] := rfl
  simp [crearRegistrosKits, maxElementosKits, registroKitsEn, elige, hr,
    List.foldl_cons, List.foldl_nil]

/-- With every candidate list a singleton, the llantas aligner yields
exactly one record. -/
theorem crearRegistrosLl_singletons (na a b : List Char) (v : Valor) (co : List Char)
    (coInt : Int) :
    crearRegistrosLl na [a] [b] [v] co coInt =
      [{ numero_aceptacion := na, referencia := a, marca := b, cantidad := v,
         cantidad_original := co }] := by
  have hr : List.range 1 = [0] := rfl
  simp [crearRegistrosLl, maxElementosLl, registroLlEn, elige, hr,
    List.foldl_cons, List.foldl_nil]

/-- The step function of the rule loop only consults the lookup of the
rule mapping. -/
theorem foldl_pasoRegla_congr (σ : OraculoSub) (e e2 : Reglas) :
    ∀ (orden : List (List Char)), (∀ n ∈ orden, e.lookup n = e2.lookup n) →
      ∀ t : List Char, orden.foldl (pasoRegla σ e) t = orden.foldl (pasoRegla σ e2) t := by
  intro orden
  induction orden with
  | nil => intro _ t; rfl
  | cons n ns ih =>
    intro h t
    simp only [List.foldl_cons]
    have hn : pasoRegla σ e t n = pasoRegla σ e2 t n := by
      unfold pasoRegla
      rw [h n (List.mem_cons_self _ _)]
    rw [hn]
    exact ih (fun m hm => h m (List.mem_cons_of_mem _ hm)) _

/-! ## The claims -/

/-- C2 (amended): for every input text, the kits quantity extractor
returns a non-empty deduplicated list sorted in ascending order whose
elements are non-negative integers (a fractional match below 1 is
truncated to 0, so 0 can occur in a non-empty candidate set), and the
llantas quantity extractor returns either the bare integer sentinel 0
(modelled as `none`, not the list `[0]`) or a non-empty deduplicated
ascending list of integers greater than or equal to 1. -/
theorem C2_cantidades_orden (t : List Char) :
    (extraerCantidadesKits t ≠ [] ∧
      List.Sorted (fun a b : Int => a ≤ b) (extraerCantidadesKits t) ∧
      (extraerCantidadesKits t).Nodup ∧ ∀ x ∈ extraerCantidadesKits t, 0 ≤ x) ∧
    (extraerCantidades t = none ∨
      ∃ xs, extraerCantidades t = some xs ∧ xs ≠ [] ∧
        List.Sorted (fun a b : Int => a ≤ b) xs ∧ xs.Nodup ∧ ∀ x ∈ xs, 1 ≤ x) :=
  ⟨extraerCantidadesKits_prop t, extraerCantidades_prop t⟩

/-- C2 (witness): the sortedness/sign clauses of `C2_cantidades_orden`
evaluated at a concrete text. -/
theorem C2_cantidades_orden_witness :
    (0 : Int) ≤ 2 ∧ extraerCantidadesKits ", CANTIDAD: 2".data ≠ [] :=
  ⟨(C2_cantidades_orden ", CANTIDAD: 2".data).1.2.2.2 2 (by decide),
   (C2_cantidades_orden ", CANTIDAD: 2".data).1.1⟩

/-- C2 (counterexample): `"0.9 UNIDADES"` matches a quantity pattern of
the kits extractor, `float` keeps it (`0.9 > 0`) and `int` truncates it
to `0`, so the extractor returns `[0, 3]` on `"0.9 UNIDADES 3 UND"` —
a non-empty candidate set containing zero, refuting "only integers
greater than or equal to 1".  The llantas extractor returns the bare
integer sentinel (modelled `none`), not the list `[0]`, on a text with
no quantity pattern. -/
theorem C2_cantidades_orden_contraejemplo :
    extraerCantidadesKits "0.9 UNIDADES 3 UND".data = [0, 3] ∧
      (0 : Int) ∈ extraerCantidadesKits "0.9 UNIDADES 3 UND".data ∧
      extraerCantidadesKits "0.9 UNIDADES 3 UND".data ≠ [0] ∧
      extraerCantidades "NADA".data = none :=
  ⟨by decide, by decide, by decide, by decide⟩

/-- C7 (amended): the kits symbol normaliser (the hardcoded
literal-replacement table of `limpiar_y_normalizar_texto_kits`) is a
fixed point on its own output; the llantas table is not idempotent
(see the counterexample). -/
theorem C7_normalizador_idempotente (s : List Char) :
    normalizarSimbolosKits (normalizarSimbolosKits s) = normalizarSimbolosKits s :=
  normalizarSimbolosKits_idem s

/-- C7 (counterexample): the llantas replacement `" USO" -> ", USO"`
re-fires on its own output, so a second application of the llantas
literal-replacement table changes the string again. -/
theorem C7_normalizador_idempotente_contraejemplo :
    normalizarSimbolosLl "A USO".data = "A, USO".data ∧
      normalizarSimbolosLl (normalizarSimbolosLl "A USO".data) = "A,, USO".data ∧
      normalizarSimbolosLl (normalizarSimbolosLl "A USO".data) ≠ normalizarSimbolosLl "A USO".data :=
  ⟨by decide, by decide, by decide⟩

/-- C8: the rule engine applies rules in the fixed canonical name
sequence of each variant and its result depends on the loaded mapping
only through name lookup (so the order rules were loaded is
irrelevant); a name absent from the mapping is a no-op step, and a rule
whose substitution errors at apply time leaves that step's text
unchanged; the engine is a total function, so it always returns. -/
theorem C8_motor_reglas :
    (∀ (σ : OraculoSub) (e e2 : Reglas) (t : List Char),
      (∀ n ∈ ordenAplicacionLl, e.lookup n = e2.lookup n) →
        aplicarExpresionesRegularesOrdenadas ordenAplicacionLl σ e t =
          aplicarExpresionesRegularesOrdenadas ordenAplicacionLl σ e2 t) ∧
    (∀ (σ : OraculoSub) (e e2 : Reglas) (t : List Char),
      (∀ n ∈ ordenAplicacionKits, e.lookup n = e2.lookup n) →
        aplicarExpresionesRegularesOrdenadas ordenAplicacionKits σ e t =
          aplicarExpresionesRegularesOrdenadas ordenAplicacionKits σ e2 t) ∧
    (∀ (σ : OraculoSub) (e : Reglas) (t n : List Char),
      e.lookup n = none → pasoRegla σ e t n = t) ∧
    (∀ (σ : OraculoSub) (e : Reglas) (t n : List Char) (cfg : ConfigRegla),
      e.lookup n = some cfg → σ cfg.patron cfg.reemplazo t = .error () →
        pasoRegla σ e t n = t) := by
  refine ⟨?_, ?_, ?_, ?_⟩
  · intro σ e e2 t h
    unfold aplicarExpresionesRegularesOrdenadas
    rw [foldl_pasoRegla_congr σ e e2 ordenAplicacionLl h t]
  · intro σ e e2 t h
    unfold aplicarExpresionesRegularesOrdenadas
    rw [foldl_pasoRegla_congr σ e e2 ordenAplicacionKits h t]
  · intro σ e t n h
    unfold pasoRegla
    rw [h]
  · intro σ e t n cfg h hσ
    unfold pasoRegla
    rw [h]
    show (if cfg.patron = [] then t
      else match σ cfg.patron cfg.reemplazo t with
        | .ok t2 => t2
        | .error _ => t) = t
    by_cases hp : cfg.patron = []
    · rw [if_pos hp]
    · rw [if_neg hp, hσ]

/-- C8 (witness): two rule mappings loaded in different orders with the
same lookup give the same engine result; an absent name is a no-op
step; an erroring substitution leaves the step unchanged. -/
theorem C8_motor_reglas_witness :
    aplicarExpresionesRegularesOrdenadas ordenAplicacionKits oraculoTrivial
        [("x".data, ⟨"p".data, "q".data⟩), ("normalizar_cantidad_coma".data, ⟨"p".data, "q".data⟩)]
        "T".data =
      aplicarExpresionesRegularesOrdenadas ordenAplicacionKits oraculoTrivial
        [("normalizar_cantidad_coma".data, ⟨"p".data, "q".data⟩), ("y".data, ⟨"p".data, "q".data⟩)]
        "T".data ∧
    pasoRegla oraculoTrivial [] "T".data "nada".data = "T".data ∧
    pasoRegla (fun _ _ _ => .error ()) [("n".data, ⟨"p".data, "q".data⟩)] "T".data "n".data =
      "T".data := by
  refine ⟨C8_motor_reglas.2.1 oraculoTrivial _ _ "T".data (by decide), ?_, ?_⟩
  · exact C8_motor_reglas.2.2.1 oraculoTrivial [] "T".data "nada".data (by decide)
  · exact C8_motor_reglas.2.2.2 (fun _ _ _ => .error ())
      [("n".data, ⟨"p".data, "q".data⟩)] "T".data "n".data ⟨"p".data, "q".data⟩ (by decide) rfl

/-- C9: in both per-file loops, a line whose stripped form is non-empty
but splits on the pipe into fewer than 4 parts increments the error
tally, contributes no records, and processing continues with the
remaining lines; a stripped-blank line is skipped with the whole state
(error tally included) unchanged. -/
theorem C9_lineas_malformadas :
    (∀ (σ : OraculoSub) (e : Reglas) (dic : DiccionarioKits) (fecha linea : List Char)
        (resto : List (List Char)) (st : EstadoArchivo RegistroKits),
      pyStrip linea ≠ [] → (dividirPipe (pyStrip linea)).length < 4 →
        procesarLineasKits σ e dic fecha (linea :: resto) st =
          procesarLineasKits σ e dic fecha resto { st with errores := st.errores + 1 }) ∧
    (∀ (σ : OraculoSub) (e : Reglas) (dic : DiccionarioKits) (fecha linea : List Char)
        (resto : List (List Char)) (st : EstadoArchivo RegistroKits),
      pyStrip linea = [] →
        procesarLineasKits σ e dic fecha (linea :: resto) st =
          procesarLineasKits σ e dic fecha resto st) ∧
    (∀ (σ : OraculoSub) (e : Reglas) (dic : DiccionarioLl) (linea : List Char)
        (resto : List (List Char)) (st : EstadoArchivo RegistroLl),
      pyStrip linea ≠ [] → (dividirPipe (pyStrip linea)).length < 4 →
        procesarLineasLl σ e dic (linea :: resto) st =
          procesarLineasLl σ e dic resto { st with errores := st.errores + 1 }) ∧
    (∀ (σ : OraculoSub) (e : Reglas) (dic : DiccionarioLl) (linea : List Char)
        (resto : List (List Char)) (st : EstadoArchivo RegistroLl),
      pyStrip linea = [] →
        procesarLineasLl σ e dic (linea :: resto) st =
          procesarLineasLl σ e dic resto st) := by
  refine ⟨?_, ?_, ?_, ?_⟩
  · intro σ e dic fecha linea resto st h1 h2
    unfold procesarLineasKits
    simp only [List.foldl_cons]
    congr 1
    unfold pasoArchivo
    rw [if_neg h1, if_neg (by omega)]
  · intro σ e dic fecha linea resto st h1
    unfold procesarLineasKits
    simp only [List.foldl_cons]
    congr 1
    unfold pasoArchivo
    rw [if_pos h1]
  · intro σ e dic linea resto st h1 h2
    unfold procesarLineasLl
    simp only [List.foldl_cons]
    congr 1
    unfold pasoArchivo
    rw [if_neg h1, if_neg (by omega)]
  · intro σ e dic linea resto st h1
    unfold procesarLineasLl
    simp only [List.foldl_cons]
    congr 1
    unfold pasoArchivo
    rw [if_pos h1]

/-- C9 (witness): the 3-part line of the specification's example
increments the error tally and contributes zero records; a blank line
leaves the state untouched. -/
theorem C9_lineas_malformadas_witness :
    procesarLineasKits oraculoTrivial [] dicVacioKits "F".data
        ["12345|onlytwo|fields".data] ⟨[], 0, 0⟩ =
      ({ resultados := [], procesadas := 0, errores := 1 } : EstadoArchivo RegistroKits) ∧
    procesarLineasLl oraculoTrivial [] dicVacioLl ["   ".data] ⟨[], 3, 1⟩ =
      ({ resultados := [], procesadas := 3, errores := 1 } : EstadoArchivo RegistroLl) := by
  constructor
  · have h := C9_lineas_malformadas.1 oraculoTrivial [] dicVacioKits "F".data
      "12345|onlytwo|fields".data [] ⟨[], 0, 0⟩ (by decide) (by decide)
    simpa [procesarLineasKits] using h
  · have h := C9_lineas_malformadas.2.2.2 oraculoTrivial [] dicVacioLl
      "   ".data [] ⟨[], 3, 1⟩ (by decide)
    simpa [procesarLineasLl] using h

/-- C10: every record emitted by the kits per-line orchestration
carries the constant string `'N/A'` in its `pasos_medidas` field,
whatever the step/measure extractor returned for the declaration. -/
theorem C10_pasos_medidas_constante (σ : OraculoSub) (e : Reglas) (dic : DiccionarioKits)
    (d na co fecha : List Char) (r : RegistroKits)
    (h : r ∈ procesarLineaKits σ e dic d na co fecha) : r.pasos_medidas = "N/A".data := by
  simp only [procesarLineaKits] at h
  rcases mem_crearRegistrosKits h with ⟨i, rfl⟩
  rfl

/-- C10 (witness): the single record of a concrete kits line carries
`'N/A'` even though its text contains extractable step notation. -/
theorem C10_pasos_medidas_constante_witness :
    ({ numero_aceptacion := "2".data, producto := "NO ESPECIFICADO".data,
       marca := "NO ESPECIFICADA".data, referencia := "NO ESPECIFICADA".data,
       modelo := "NO ESPECIFICADO".data, cantidad := 3, unidad := "UNIDADES".data,
       es_cadena := "SÍ".data, pasos_medidas := "N/A".data,
       cantidad_original := "3".data, fecha_procesamiento := "F".data } :
      RegistroKits).pasos_medidas = "N/A".data :=
  C10_pasos_medidas_constante oraculoTrivial [] dicVacioKits "CADENA 428H".data
    "2".data "3".data "F".data _ (by decide)

/-- C1 (amended): each aligner loop is the first-seen deduplication of
a slot sequence with exactly `max_elementos` slots, where
`max_elementos` for the kits variant is the maximum of the product,
brand, reference and model candidate counts and 1 — the quantity list
is *not* included — and for the llantas variant the maximum of the
reference, brand and quantity counts and 1; each slot pick takes the
element at index `i` while in range and clamps to the shorter list's
last element once that list is exhausted. -/
theorem C1_alineacion_recorte :
    (∀ (na : List Char) (p m r mo : List (List Char)) (c : List Int) (ec : Bool)
        (coInt : Int) (co fecha : List Char),
      crearRegistrosKits na p m r mo c ec coInt co fecha =
          pyDedup (slotsKits na p m r mo c ec coInt co fecha) ∧
        (slotsKits na p m r mo c ec coInt co fecha).length =
          max (max (max p.length m.length) (max r.length mo.length)) 1) ∧
    (∀ (na : List Char) (refs marcas : List (List Char)) (cants : List Valor)
        (co : List Char) (coInt : Int),
      crearRegistrosLl na refs marcas cants co coInt =
          pyDedup (slotsLl na refs marcas cants co coInt) ∧
        (slotsLl na refs marcas cants co coInt).length =
          max (max refs.length marcas.length) (max cants.length 1)) ∧
    (∀ (xs : List (List Char)) (d : List Char) (i : Nat),
      i < xs.length → elige xs d i = xs.getD i d) ∧
    (∀ (xs : List (List Char)) (d : List Char) (i : Nat),
      xs ≠ [] → xs.length - 1 ≤ i → some (elige xs d i) = xs.getLast?) := by
  refine ⟨?_, ?_, ?_, ?_⟩
  · intro na p m r mo c ec coInt co fecha
    refine ⟨crearRegistrosKits_eq_dedup na p m r mo c ec coInt co fecha, ?_⟩
    unfold slotsKits maxElementosKits
    rw [List.length_map, List.length_range]
  · intro na refs marcas cants co coInt
    refine ⟨crearRegistrosLl_eq_dedup na refs marcas cants co coInt, ?_⟩
    unfold slotsLl maxElementosLl
    rw [List.length_map, List.length_range]
  · exact fun xs d i hi => elige_en_rango xs d i hi
  · exact fun xs d i h hi => elige_ultimo xs d i h hi

/-- C1 (witness): the slot-count equation and the clamp law evaluated
at concrete lists — four singleton field lists and a two-element
quantity list give a single kits slot. -/
theorem C1_alineacion_recorte_witness :
    (slotsKits "1".data ["A".data] ["B".data] ["C".data] ["D".data] [2, 3] false 0
        "5".data "F".data).length = 1 ∧
      some (elige ["X".data, "Y".data] "".data 7) =
        (["X".data, "Y".data] : List (List Char)).getLast? := by
  constructor
  · have h := (C1_alineacion_recorte.1 "1".data ["A".data] ["B".data] ["C".data]
      ["D".data] [2, 3] false 0 "5".data "F".data).2
    simpa using h
  · exact C1_alineacion_recorte.2.2.2 ["X".data, "Y".data] "".data 7 (by decide) (by decide)

/-- C1 (counterexample): on the declaration text
`", CANTIDAD: 2 , CANTIDAD: 3"` the kits extraction yields a quantity
set of size 2 while every other candidate set is a sentinel singleton;
a maximum that included the quantity set would demand 2 slots, but the
pipeline produces exactly 1 record. -/
theorem C1_alineacion_recorte_contraejemplo :
    (procesarLineaKits oraculoTrivial [] dicVacioKits ", CANTIDAD: 2 , CANTIDAD: 3".data
        "1".data "5".data "F".data).length = 1 ∧
      (extraerCantidadesKits (textoProcesadoKits oraculoTrivial [] dicVacioKits
        ", CANTIDAD: 2 , CANTIDAD: 3".data)).length = 2 :=
  ⟨by decide, by decide⟩

/-- C4 (amended): a declaration on which every field extractor comes
back with its sentinel yields exactly one record, all string fields at
their sentinels; in the kits variant its quantity is the coerced
declared quantity, while in the llantas variant its quantity is the
declared-quantity *string* carried verbatim (not the coerced integer).
No declaration yields zero records. -/
theorem C4_sin_palabras_clave :
    (∀ (σ : OraculoSub) (e : Reglas) (dic : DiccionarioKits) (d na co fecha : List Char),
      extraerProductos (textoProcesadoKits σ e dic d) = ["NO ESPECIFICADO".data] →
      extraerMarcasKits (textoProcesadoKits σ e dic d) = ["NO ESPECIFICADA".data] →
      extraerReferenciasKits (textoProcesadoKits σ e dic d) = ["NO ESPECIFICADA".data] →
      extraerModelos (textoProcesadoKits σ e dic d) = ["NO ESPECIFICADO".data] →
      extraerCantidadesKits (textoProcesadoKits σ e dic d) = [0] →
      procesarLineaKits σ e dic d na co fecha =
        [{ numero_aceptacion := na, producto := "NO ESPECIFICADO".data,
           marca := "NO ESPECIFICADA".data, referencia := "NO ESPECIFICADA".data,
           modelo := "NO ESPECIFICADO".data,
           cantidad := (pyFloatTrunc (subGrupo patronCeros00Kits co)).getD 0,
           unidad := "UNIDADES".data,
           es_cadena := if detectarCadenas (textoProcesadoKits σ e dic d) then "SÍ".data
             else "NO".data,
           pasos_medidas := "N/A".data, cantidad_original := co,
           fecha_procesamiento := fecha }]) ∧
    (∀ (σ : OraculoSub) (e : Reglas) (dic : DiccionarioLl) (d na co : List Char),
      extraerReferencias (textoProcesadoLl σ e dic d) dic = ["NO TIENE".data] →
      extraerMarcas (textoProcesadoLl σ e dic d) = ["NO TIENE".data] →
      extraerCantidades (textoProcesadoLl σ e dic d) = none →
      procesarLineaImportacion σ e dic d na co =
        [{ numero_aceptacion := na, referencia := "NO TIENE".data, marca := "NO TIENE".data,
           cantidad := Valor.str co, cantidad_original := co }]) := by
  constructor
  · intro σ e dic d na co fecha hp hm hr hmo hc
    simp only [procesarLineaKits, hp, hm, hr, hmo, hc]
    simp only [or_true, if_true]
    exact crearRegistrosKits_singletons na _ _ _ _ _ _ _ co fecha
  · intro σ e dic d na co hr hm hc
    simp only [procesarLineaImportacion, hr, hm, hc]
    exact crearRegistrosLl_singletons na _ _ _ co _

/-- C4 (witness): a keyword-free declaration text evaluated through the
kits pipeline yields the single all-sentinel record with the coerced
declared quantity. -/
theorem C4_sin_palabras_clave_witness :
    procesarLineaKits oraculoTrivial [] dicVacioKits "X".data "1".data "5".data "F".data =
      [{ numero_aceptacion := "1".data, producto := "NO ESPECIFICADO".data,
         marca := "NO ESPECIFICADA".data, referencia := "NO ESPECIFICADA".data,
         modelo := "NO ESPECIFICADO".data, cantidad := 5, unidad := "UNIDADES".data,
         es_cadena := "NO".data, pasos_medidas := "N/A".data,
         cantidad_original := "5".data, fecha_procesamiento := "F".data }] := by
  have h := C4_sin_palabras_clave.1 oraculoTrivial [] dicVacioKits "X".data "1".data
    "5".data "F".data (by decide) (by decide) (by decide) (by decide) (by decide)
  have h2 : (pyFloatTrunc (subGrupo patronCeros00Kits "5".data)).getD 0 = 5 := by decide
  have h3 : detectarCadenas (textoProcesadoKits oraculoTrivial [] dicVacioKits "X".data)
      = false := by decide
  rw [h2, h3] at h
  simpa using h

/-- C4 (counterexample): on a keyword-free llantas declaration with
declared quantity `"7.00"`, the single record's quantity is the raw
string `"7.00"`, not the coerced integer 7 the claim demands (the
coercion of `"7.00"` would give 7). -/
theorem C4_sin_palabras_clave_contraejemplo :
    procesarLineaImportacion oraculoTrivial [] dicVacioLl "X".data "9".data "7.00".data =
        [{ numero_aceptacion := "9".data, referencia := "NO TIENE".data,
           marca := "NO TIENE".data, cantidad := Valor.str "7.00".data,
           cantidad_original := "7.00".data }] ∧
      Valor.str "7.00".data ≠ Valor.int 7 ∧
      pyFloatTrunc (subGrupo patronCeros00Ll "7.00".data) = some 7 :=
  ⟨by decide, by decide, by decide⟩

/-- C5: on the llantas failing input (description `"SIN DATOS"`, no
quantity pattern; declared quantity `"12.00"`), the emitted record
carries the raw declared-quantity string instead of the coerced
integer 12 — even though the cleaning-and-coercion of `"12.00"` itself
would produce 12.  The code's "cantidad original" coercion is applied
to `str(cantidades)` (the repr of the extracted candidate collection),
not to the declared quantity. -/
theorem C5_cantidad_original_llantas :
    procesarLineaImportacion oraculoTrivial [] dicVacioLl "SIN DATOS".data "8".data
        "12.00".data =
      [{ numero_aceptacion := "8".data, referencia := "NO TIENE".data,
         marca := "NO TIENE".data, cantidad := Valor.str "12.00".data,
         cantidad_original := "12.00".data }] ∧
    pyFloatTrunc (subGrupo patronCeros00Ll "12.00".data) = some 12 ∧
    subGrupo patronCeros00Ll (reprCantidades (extraerCantidades
      (textoProcesadoLl oraculoTrivial [] dicVacioLl "SIN DATOS".data))) = "0".data :=
  ⟨by decide, by decide, by decide⟩

/-- C6 (amended): every kits record's quantity is an integer that is
either non-negative (it came from the text extractor) or equal to the
coerced declared quantity, which can be negative and which is 0
whenever the declared quantity fails to parse; every llantas record's
quantity is either an extracted integer at least 1 or the raw
declared-quantity string. -/
theorem C6_cantidad_registro :
    (∀ (σ : OraculoSub) (e : Reglas) (dic : DiccionarioKits) (d na co fecha : List Char)
        (r : RegistroKits), r ∈ procesarLineaKits σ e dic d na co fecha →
      0 ≤ r.cantidad ∨ r.cantidad = (pyFloatTrunc (subGrupo patronCeros00Kits co)).getD 0) ∧
    (∀ (σ : OraculoSub) (e : Reglas) (dic : DiccionarioLl) (d na co : List Char)
        (r : RegistroLl), r ∈ procesarLineaImportacion σ e dic d na co →
      (∃ n : Int, r.cantidad = Valor.int n ∧ 1 ≤ n) ∨ r.cantidad = Valor.str co) ∧
    (∀ s : List Char, pyFloatTrunc s = none → (pyFloatTrunc s).getD 0 = 0) := by
  refine ⟨?_, ?_, ?_⟩
  · intro σ e dic d na co fecha r h
    simp only [procesarLineaKits] at h
    rcases mem_crearRegistrosKits h with ⟨i, rfl⟩
    simp only [registroKitsEn]
    by_cases hc : extraerCantidadesKits (textoProcesadoKits σ e dic d) = [] ∨
        extraerCantidadesKits (textoProcesadoKits σ e dic d) = [0]
    · rw [if_pos hc]
      right
      have := elige_mem [(pyFloatTrunc (subGrupo patronCeros00Kits co)).getD 0]
        ((pyFloatTrunc (subGrupo patronCeros00Kits co)).getD 0) i (by simp)
      simpa using this
    · rw [if_neg hc]
      left
      have hprop := extraerCantidadesKits_prop (textoProcesadoKits σ e dic d)
      exact hprop.2.2.2 _ (elige_mem _ _ i hprop.1)
  · intro σ e dic d na co r h
    simp only [procesarLineaImportacion] at h
    rcases mem_crearRegistrosLl h with ⟨i, rfl⟩
    simp only [registroLlEn]
    rcases extraerCantidades_prop (textoProcesadoLl σ e dic d) with hnone |
      ⟨xs, hsome, hne, _, _, hpos⟩
    · rw [hnone]
      right
      have := elige_mem [Valor.str co] (Valor.int
        ((pyFloatTrunc (subGrupo patronCeros00Ll (reprCantidades none))).getD 0)) i (by simp)
      simpa using this
    · rw [hsome]
      left
      have hne2 : xs.map Valor.int ≠ [] := by
        intro h0
        exact hne (List.map_eq_nil_iff.mp h0)
      have hmem := elige_mem (xs.map Valor.int) (Valor.int
        ((pyFloatTrunc (subGrupo patronCeros00Ll (reprCantidades (some xs)))).getD 0)) i hne2
      rcases List.mem_map.mp hmem with ⟨n, hn, hv⟩
      exact ⟨n, hv.symm, hpos n hn⟩
  · intro s h
    rw [h]
    rfl

/-- C6 (witness): the invariant applied to the record of a concrete
kits line whose declared quantity parses to a negative value. -/
theorem C6_cantidad_registro_witness :
    0 ≤ (-5 : Int) ∨ (-5 : Int) =
      (pyFloatTrunc (subGrupo patronCeros00Kits "-5".data)).getD 0 := by
  have h := C6_cantidad_registro.1 oraculoTrivial [] dicVacioKits "X".data "1".data
    "-5".data "F".data
    { numero_aceptacion := "1".data, producto := "NO ESPECIFICADO".data,
      marca := "NO ESPECIFICADA".data, referencia := "NO ESPECIFICADA".data,
      modelo := "NO ESPECIFICADO".data, cantidad := -5, unidad := "UNIDADES".data,
      es_cadena := "NO".data, pasos_medidas := "N/A".data,
      cantidad_original := "-5".data, fecha_procesamiento := "F".data } (by decide)
  simpa using h

/-- C6 (counterexample): a kits declaration whose text yields no
quantity and whose declared quantity is `"-5"` emits a record with
quantity `-5`, a negative integer. -/
theorem C6_cantidad_registro_contraejemplo :
    (procesarLineaKits oraculoTrivial [] dicVacioKits "X".data "1".data "-5".data
        "F".data).map (fun r => r.cantidad) = [-5] ∧ (-5 : Int) < 0 :=
  ⟨by decide, by decide⟩

end Choho
